import Mathlib

/-!
Shallow embedding of the metadata-generation client (`MetadataAPI`) of the
aem-assets-autometadata-tool repository, together with theorems settling the
frozen claims about it.

JavaScript values that can appear in the JSON bodies and in the dynamically
shaped metadata records are modelled by `JsonVal`; a JavaScript object is an
association list of string keys (`Obj`) with assignment (`setF`) and property
read (`getF`) mirroring JS semantics.  Machine behaviour that the source
leaves to the JS runtime (JSON.parse, JSON.stringify, String.prototype.trim,
the `/\s+/` regex, `||` falsiness) is embedded explicitly below.
-/

/-- A JSON number as produced by `JSON.parse`: `mantissa * 10 ^ exponent`.
Zero-ness (JS falsiness) is `mantissa = 0`. -/
structure JsonNum where
  mantissa : Int
  exponent : Int
deriving Repr, DecidableEq

/-- JavaScript/JSON values reachable in this program (no `undefined`:
absence is `Option.none` at use sites). -/
inductive JsonVal where
  | null
  | bool (b : Bool)
  | num (n : JsonNum)
  | str (s : String)
  | arr (elems : List JsonVal)
  | obj (fields : List (String × JsonVal))

/-- A JavaScript object: keys in insertion order, keys unique. -/
abbrev Obj := List (String × JsonVal)

/-- Property read `o[k]`: first (hence only) binding of the key. -/
def getF : Obj → String → Option JsonVal
  | [], _ => none
  | (k', v') :: rest, k => if k' == k then some v' else getF rest k

/-- Property assignment `o[k] = v`: overwrite in place, else append
(JS object insertion-order semantics). -/
def setF : Obj → String → JsonVal → Obj
  | [], k, v => [(k, v)]
  | (k', v') :: rest, k, v =>
      if k' == k then (k', v) :: rest else (k', v') :: setF rest k v

theorem getF_setF (o : Obj) (k : String) (v : JsonVal) (k' : String) :
    getF (setF o k v) k' = if k == k' then some v else getF o k' := by
  induction o with
  | nil => rfl
  | cons p rest ih =>
      obtain ⟨k0, v0⟩ := p
      by_cases h1 : k0 = k
      · subst h1
        simp only [setF, beq_self_eq_true, if_true, getF]
        by_cases h2 : k0 = k'
        · subst h2
          simp [beq_self_eq_true]
        · simp [beq_eq_false_iff_ne.mpr h2]
      · simp only [setF, beq_eq_false_iff_ne.mpr h1, getF, ih]
        by_cases h2 : k0 = k'
        · subst h2
          simp [beq_self_eq_true, beq_eq_false_iff_ne.mpr (Ne.symm h1)]
        · simp [beq_eq_false_iff_ne.mpr h2]

/-- Whitespace as JavaScript's `trim` / `\s` see it (the characters this
program can actually meet). -/
def jsIsSpace (c : Char) : Bool :=
  c == ' ' || c == '\t' || c == '\n' || c == '\r' ||
  c == (Char.ofNat 12) || c == (Char.ofNat 11) || c == (Char.ofNat 160) ||
  c == (Char.ofNat 65279)

/-- `String.prototype.trim`. -/
def jsTrim (s : String) : String :=
  String.mk (((s.data.dropWhile jsIsSpace).reverse.dropWhile jsIsSpace).reverse)

/-- One pass of `replace(/\s+/g, ' ')` over an already scanned stream;
the flag records whether the previous character was whitespace. -/
def collapseWsGo : Bool → List Char → List Char
  | _, [] => []
  | prevSpace, c :: rest =>
      if jsIsSpace c then
        if prevSpace then collapseWsGo true rest
        else ' ' :: collapseWsGo true rest
      else c :: collapseWsGo false rest

/-- `sanitizeString` (part_000 lines 424-427): non-strings become `''`;
strings are trimmed and internal whitespace runs collapse to one space. -/
def sanitizeString (s : String) : String :=
  String.mk (collapseWsGo false (jsTrim s).data)

/-- The code-fence marker `<backtick*3>json\n`. -/
def fenceJsonNl : List Char := "```json\n".data

/-- The code-fence marker `<backtick*3>json`. -/
def fenceJson : List Char := "```json".data

/-- The code-fence marker `\n<backtick*3>`. -/
def fenceNlTicks : List Char := "\n```".data

/-- The code-fence marker `<backtick*3>`. -/
def fenceTicks : List Char := "```".data

/-- Scanner for `content.replace(/```json\n?|\n?```/g, '')` (line 274):
at each position try the alternatives in regex order (greedy `\n?`),
otherwise emit one character; fuelled by the input length. -/
def stripFencesGo : Nat → List Char → List Char
  | 0, cs => cs
  | _ + 1, [] => []
  | fuel + 1, c :: rest =>
      let cs := c :: rest
      if fenceJsonNl.isPrefixOf cs then stripFencesGo fuel (cs.drop 8)
      else if fenceJson.isPrefixOf cs then stripFencesGo fuel (cs.drop 7)
      else if fenceNlTicks.isPrefixOf cs then stripFencesGo fuel (cs.drop 4)
      else if fenceTicks.isPrefixOf cs then stripFencesGo fuel (cs.drop 3)
      else c :: stripFencesGo fuel rest

/-- Global removal of the code-fence markers, as the source's regex does
(everywhere in the string, not only at its ends). -/
def stripFences (s : String) : String :=
  String.mk (stripFencesGo s.data.length s.data)

/-! ### A model of `JSON.parse` (fuelled recursive-descent parser) -/

/-- JSON inter-token whitespace (RFC 8259: space, tab, LF, CR). -/
def jsonWs (c : Char) : Bool :=
  c == ' ' || c == '\t' || c == '\n' || c == '\r'

/-- Skip JSON whitespace. -/
def skipWs (cs : List Char) : List Char := cs.dropWhile jsonWs

/-- Value of a hexadecimal digit. -/
def hexVal? (c : Char) : Option Nat :=
  if '0' ≤ c && c ≤ '9' then some (c.toNat - 48)
  else if 'a' ≤ c && c ≤ 'f' then some (c.toNat - 87)
  else if 'A' ≤ c && c ≤ 'F' then some (c.toNat - 55)
  else none

/-- Opening brace character (written numerically). -/
def lbraceChar : Char := Char.ofNat 123

/-- Closing brace character (written numerically). -/
def rbraceChar : Char := Char.ofNat 125

/-- Parse a JSON string body after the opening quote; returns the decoded
characters and the remainder after the closing quote. -/
def parseStringBody : List Char → Option (List Char × List Char)
  | [] => none
  | c :: rest =>
      if c == '"' then some ([], rest)
      else if c == '\\' then
        match rest with
        | [] => none
        | e :: rest2 =>
            if e == '"' then
              (parseStringBody rest2).map (fun p => ('"' :: p.1, p.2))
            else if e == '\\' then
              (parseStringBody rest2).map (fun p => ('\\' :: p.1, p.2))
            else if e == '/' then
              (parseStringBody rest2).map (fun p => ('/' :: p.1, p.2))
            else if e == 'b' then
              (parseStringBody rest2).map (fun p => (Char.ofNat 8 :: p.1, p.2))
            else if e == 'f' then
              (parseStringBody rest2).map (fun p => (Char.ofNat 12 :: p.1, p.2))
            else if e == 'n' then
              (parseStringBody rest2).map (fun p => ('\n' :: p.1, p.2))
            else if e == 'r' then
              (parseStringBody rest2).map (fun p => ('\r' :: p.1, p.2))
            else if e == 't' then
              (parseStringBody rest2).map (fun p => ('\t' :: p.1, p.2))
            else if e == 'u' then
              match rest2 with
              | h1 :: h2 :: h3 :: h4 :: rest3 =>
                  match hexVal? h1, hexVal? h2, hexVal? h3, hexVal? h4 with
                  | some a, some b, some c3, some d =>
                      let code := ((a * 16 + b) * 16 + c3) * 16 + d
                      if code.isValidChar then
                        (parseStringBody rest3).map
                          (fun p => (Char.ofNat code :: p.1, p.2))
                      else none
                  | _, _, _, _ => none
              | _ => none
            else none
      else if c.toNat < 32 then none
      else (parseStringBody rest).map (fun p => (c :: p.1, p.2))

/-- Digits to a natural number. -/
def digitsToNat (ds : List Char) : Nat :=
  ds.foldl (fun n c => n * 10 + (c.toNat - 48)) 0

/-- Parse a JSON number (sign, integer part without leading zeros, optional
fraction, optional exponent) into mantissa-exponent form. -/
def parseNumber (cs : List Char) : Option (JsonNum × List Char) :=
  let negp : Bool × List Char :=
    match cs with
    | '-' :: rest => (true, rest)
    | _ => (false, cs)
  let neg := negp.1
  let cs1 := negp.2
  let intDigits := cs1.takeWhile Char.isDigit
  let cs2 := cs1.dropWhile Char.isDigit
  if intDigits.isEmpty then none
  else if 1 < intDigits.length && intDigits.head? == some '0' then none
  else
    let hasDot : Bool := match cs2 with | '.' :: _ => true | _ => false
    let afterDot : List Char := match cs2 with | _ :: rest => rest | [] => []
    let fracDigits := if hasDot then afterDot.takeWhile Char.isDigit else []
    let cs3 := if hasDot then afterDot.dropWhile Char.isDigit else cs2
    if hasDot && fracDigits.isEmpty then none
    else
      let mant : Int :=
        (if neg then -1 else 1) * (digitsToNat (intDigits ++ fracDigits) : Int)
      let hasExp : Bool := match cs3 with | c :: _ => c == 'e' || c == 'E' | [] => false
      if hasExp then
        let afterE : List Char := match cs3 with | _ :: rest => rest | [] => []
        let expp : Bool × List Char :=
          match afterE with
          | '+' :: rest => (false, rest)
          | '-' :: rest => (true, rest)
          | _ => (false, afterE)
        let expDigits := expp.2.takeWhile Char.isDigit
        let cs5 := expp.2.dropWhile Char.isDigit
        if expDigits.isEmpty then none
        else
          let expo : Int :=
            (if expp.1 then -(digitsToNat expDigits : Int) else (digitsToNat expDigits : Int))
              - fracDigits.length
          some (⟨mant, expo⟩, cs5)
      else
        some (⟨mant, -(fracDigits.length : Int)⟩, cs3)

mutual

/-- Parse one JSON value (fuelled). -/
def parseValue : Nat → List Char → Option (JsonVal × List Char)
  | 0, _ => none
  | fuel + 1, cs0 =>
      let cs := skipWs cs0
      match cs with
      | [] => none
      | c :: rest =>
          if c == 'n' then
            if "null".data.isPrefixOf cs then some (.null, cs.drop 4) else none
          else if c == 't' then
            if "true".data.isPrefixOf cs then some (.bool true, cs.drop 4) else none
          else if c == 'f' then
            if "false".data.isPrefixOf cs then some (.bool false, cs.drop 5) else none
          else if c == '"' then
            (parseStringBody rest).map (fun p => (.str (String.mk p.1), p.2))
          else if c == '[' then
            match skipWs rest with
            | ']' :: rest1 => some (.arr [], rest1)
            | cs1 => parseElems fuel cs1 []
          else if c == lbraceChar then
            match skipWs rest with
            | c1 :: rest1 =>
                if c1 == rbraceChar then some (.obj [], rest1)
                else parseFields fuel (c1 :: rest1) []
            | [] => none
          else
            (parseNumber cs).map (fun p => (.num p.1, p.2))

/-- Parse the elements of a non-empty JSON array (fuelled). -/
def parseElems : Nat → List Char → List JsonVal → Option (JsonVal × List Char)
  | 0, _, _ => none
  | fuel + 1, cs, acc =>
      match parseValue fuel cs with
      | none => none
      | some (v, rest) =>
          match skipWs rest with
          | ',' :: rest1 => parseElems fuel rest1 (v :: acc)
          | ']' :: rest1 => some (.arr (v :: acc).reverse, rest1)
          | _ => none

/-- Parse the members of a non-empty JSON object (fuelled); a duplicated
key overwrites the earlier binding, as `JSON.parse` does. -/
def parseFields : Nat → List Char → Obj → Option (JsonVal × List Char)
  | 0, _, _ => none
  | fuel + 1, cs, acc =>
      match skipWs cs with
      | '"' :: rest =>
          match parseStringBody rest with
          | none => none
          | some (kcs, rest1) =>
              match skipWs rest1 with
              | ':' :: rest2 =>
                  match parseValue fuel rest2 with
                  | none => none
                  | some (v, rest3) =>
                      let acc1 := setF acc (String.mk kcs) v
                      match skipWs rest3 with
                      | ',' :: rest4 => parseFields fuel rest4 acc1
                      | c4 :: rest4 =>
                          if c4 == rbraceChar then some (.obj acc1, rest4) else none
                      | [] => none
              | _ => none
      | _ => none

end

/-- The model of `JSON.parse`: parse one value and require only whitespace
after it; `none` is a thrown `SyntaxError`. -/
def jsonParse (s : String) : Option JsonVal :=
  match parseValue (4 * (s.data.length + 1)) s.data with
  | some (v, rest) => if (skipWs rest).isEmpty then some v else none
  | none => none

/-! ### A model of `JSON.stringify(x, null, 2)` -/

/-- Lower-case hexadecimal digit. -/
def hexDigit (n : Nat) : Char :=
  if n < 10 then Char.ofNat (48 + n) else Char.ofNat (87 + n)

/-- Escape one character for a JSON string literal. -/
def escapeJsonChar (c : Char) : List Char :=
  if c == '"' then ['\\', '"']
  else if c == '\\' then ['\\', '\\']
  else if c == '\n' then ['\\', 'n']
  else if c == '\r' then ['\\', 'r']
  else if c == '\t' then ['\\', 't']
  else if c == Char.ofNat 8 then ['\\', 'b']
  else if c == Char.ofNat 12 then ['\\', 'f']
  else if c.toNat < 32 then
    ['\\', 'u', '0', '0', hexDigit (c.toNat / 16), hexDigit (c.toNat % 16)]
  else [c]

/-- A JSON string literal with quotes. -/
def quoteJson (s : String) : String :=
  String.mk ('"' :: s.data.foldr (fun c acc => escapeJsonChar c ++ acc) ['"'])

/-- Render a parsed JSON number (integers exactly; other numbers in
mantissa-exponent form, an adequate stand-in for double formatting, which
no theorem below depends on). -/
def renderNum (n : JsonNum) : String :=
  if n.exponent == 0 then toString n.mantissa
  else toString n.mantissa ++ "e" ++ toString n.exponent

/-- `n` spaces. -/
def spacesN (n : Nat) : String := String.mk (List.replicate n ' ')

mutual

/-- `JSON.stringify(v, null, 2)` at surrounding indentation `ind`. -/
def stringifyV (ind : Nat) : JsonVal → String
  | .null => "null"
  | .bool true => "true"
  | .bool false => "false"
  | .num n => renderNum n
  | .str s => quoteJson s
  | .arr [] => "[]"
  | .arr (x :: xs) =>
      "[\n" ++ stringifyArr (ind + 2) x xs ++ "\n" ++ spacesN ind ++ "]"
  | .obj [] => "\x7b\x7d"
  | .obj (f :: fs) =>
      "\x7b\n" ++ stringifyObj (ind + 2) f fs ++ "\n" ++ spacesN ind ++ "\x7d"
termination_by v => sizeOf v

/-- Comma-joined array items, one per line at indentation `ind`. -/
def stringifyArr (ind : Nat) : JsonVal → List JsonVal → String
  | x, [] => spacesN ind ++ stringifyV ind x
  | x, y :: ys => spacesN ind ++ stringifyV ind x ++ ",\n" ++ stringifyArr ind y ys
termination_by x xs => 1 + sizeOf x + sizeOf xs

/-- Comma-joined object members, one per line at indentation `ind`. -/
def stringifyObj (ind : Nat) : String × JsonVal → List (String × JsonVal) → String
  | (k, v), [] => spacesN ind ++ quoteJson k ++ ": " ++ stringifyV ind v
  | (k, v), g :: gs =>
      spacesN ind ++ quoteJson k ++ ": " ++ stringifyV ind v ++ ",\n" ++
        stringifyObj ind g gs
termination_by f fs => 1 + sizeOf f + sizeOf fs

end

/-- Top-level `JSON.stringify(v, null, 2)`. -/
def stringifyPretty (v : JsonVal) : String := stringifyV 0 v

/-! ### JavaScript expression semantics used by the source -/

/-- JS truthiness of a possibly-undefined value (`none` = `undefined`). -/
def jsTruthy : Option JsonVal → Bool
  | none => false
  | some .null => false
  | some (.bool b) => b
  | some (.num n) => !(n.mantissa == 0)
  | some (.str s) => !s.isEmpty
  | some (.arr _) => true
  | some (.obj _) => true

/-- `a || b` on possibly-undefined values. -/
def jsOr (a b : Option JsonVal) : Option JsonVal :=
  if jsTruthy a then a else b

/-- Property access `v.k` on a value known not to be null/undefined
(objects yield the binding, everything else yields `undefined`). -/
def jsGet (v : JsonVal) (k : String) : Option JsonVal :=
  match v with
  | .obj fs => getF fs k
  | _ => none

/-- Index access `v[i]` (arrays by position, strings by character,
objects by the numeral key). -/
def jsIndex (v : JsonVal) (i : Nat) : Option JsonVal :=
  match v with
  | .arr l => l.get? i
  | .str s => (s.data.get? i).map (fun c => .str (String.mk [c]))
  | .obj fs => getF fs (toString i)
  | _ => none

/-- Optional chaining `v?.k`. -/
def optGet (v? : Option JsonVal) (k : String) : Option JsonVal :=
  match v? with
  | some v => jsGet v k
  | none => none

/-- Optional chaining `v?.[i]`. -/
def optIndex (v? : Option JsonVal) (i : Nat) : Option JsonVal :=
  match v? with
  | some v => jsIndex v i
  | none => none

/-- `this.sanitizeString(x)` applied to an arbitrary JS value: the
`typeof str !== 'string'` guard returns `''`. -/
def sanitizeVal : Option JsonVal → String
  | some (.str s) => sanitizeString s
  | _ => ""

/-- JS truthiness of an optional string field (`undefined` and `''` are
falsy). -/
def strTruthy : Option String → Bool
  | none => false
  | some s => !s.isEmpty

/-- `a || b` on optional string fields. -/
def jsOrStr (a b : Option String) : Option String :=
  if strTruthy a then a else b

/-- `String.prototype.includes`. -/
def containsSub (s pat : String) : Bool :=
  (List.range (s.data.length + 1)).any (fun i => pat.data.isPrefixOf (s.data.drop i))

/-! ### Data model of the client -/

/-- One stored custom prompt (the spec's `PromptRule`). -/
structure PromptRule where
  property : String
  prompt : String

/-- The `localStorage['customPrompts']` state as `getStoredCustomPrompts`
(lines 355-379) distinguishes it: nothing stored, stored-but-unreadable
(JSON.parse/localStorage threw), or a stored rule list. -/
inductive StoredPrompts where
  | absent
  | corrupt
  | stored (rules : List PromptRule)

/-- `getStoredCustomPrompts` (lines 355-379): the first-run default is a
description-only rule; the error fallback is a shorter description-only
rule. -/
def getStoredCustomPrompts : StoredPrompts → List PromptRule
  | .absent =>
      [⟨"description", "Generate a detailed description for this image. Focus on the main subject, setting, activity, key visual elements, and any visible text or numeric values. Provide 3-5 sentences that would help someone understand what this image contains."⟩]
  | .corrupt =>
      [⟨"description", "Generate a detailed description for this image."⟩]
  | .stored rules => rules

/-- The `this.config` record (constructor defaults, lines 9-15; extra keys
`deployment`, `apiVersion`, `modelName`, `customPrompt`, `openApiUrl` are
absent until `setConfig` supplies them). -/
structure Config where
  openaiUrl : Option String := some "https://your-openai-api-endpoint.com/analyze"
  llamaUrl : Option String := some "https://your-llama-api-endpoint.com/analyze"
  openApiUrl : Option String := none
  apiKey : Option String := some ""
  timeout : Nat := 30000
  retryAttempts : Nat := 3
  deployment : Option String := none
  apiVersion : Option String := none
  modelName : Option String := none
  customPrompt : Option String := none

/-- The constructor's configuration. -/
def defaultConfig : Config := {}

/-- Per-call image descriptor (never read by the payload builder). -/
structure ImageInfo where
  width : Nat
  height : Nat
  format : String
  size : Nat
  filename : String

/-- The outcome the JS runtime hands one `fetch` attempt inside the retry
loop: the fetch/abort rejection, a non-2xx response, a body that is not
JSON (`response.json()` rejects), or a parsed JSON body. -/
inductive FetchOutcome where
  | netError (msg : String)
  | httpError (status : Nat) (statusText : String) (body : String)
  | jsonError (msg : String)
  | success (body : JsonVal)

/-- The message of the error the attempt throws, if it fails
(`HTTP ${status}: ${statusText} - ${errorText}` for non-ok responses,
line 141). -/
def fetchFailMessage : FetchOutcome → Option String
  | .netError m => some m
  | .httpError status statusText body =>
      some ("HTTP " ++ toString status ++ ": " ++ statusText ++ " - " ++ body)
  | .jsonError m => some m
  | .success _ => none

/-- Observable outcome of `callAPI`: the returned record (or, `.error`,
an exception escaping it), the number of fetch attempts performed, the
backoff waits in order, and whether any network I/O happened. -/
structure CallOutcome where
  result : Except String Obj
  attemptsMade : Nat
  waits : List Nat
  networkUsed : Bool

/-! ### Prompt resolution and payload building (lines 167-226, 385-393) -/

/-- `String.prototype.toLowerCase` (ASCII case folding, which covers every
property name the table compares). -/
def jsToLower (s : String) : String :=
  String.mk (s.data.map
    (fun c => if 'A' ≤ c && c ≤ 'Z' then Char.ofNat (c.toNat + 32) else c))

/-- The built-in per-property default prompts and the synthesized generic
instruction (`getDefaultPromptForProperty`, lines 385-393); the table is
consulted with the lower-cased property name. -/
def getDefaultPromptForProperty (property : String) : String :=
  let lp := jsToLower property
  if lp == "title" then
    "Generate a concise, editorial title (6-10 words) for this image. Focus on the main subject and key visual elements. Only include brand names if they are unmistakably visible. Return only the title text, no additional formatting or explanation."
  else if lp == "description" then
    "Write a detailed description (3-5 sentences) of this image. Start with the main subject, then describe the setting/activity, and finally mention key visual elements. Include any visible numeric values with their units. Return only the description text, no additional formatting or explanation."
  else if lp == "keywords" then
    "Generate up to 12 relevant keywords for this image. Prioritize single keywords first, use multi-word phrases only when contextually necessary. Include visible numeric values with units. Exclude: logo, brand, branding, packaging. Return only the keywords as comma-separated text, no additional formatting or explanation."
  else
    "Analyze this image and provide relevant " ++ property ++
      " information. Return only the " ++ property ++
      " text, no additional formatting or explanation."

/-- The global default prompt for whole-asset metadata (template literal,
lines 181-200). -/
def globalDefaultPrompt : String :=
  "Enrich asset metadata for discoverability.\n\nFACETS (use only when clearly visible):\n1. Product/type/model/brand\n2. Setting/activity/visuals\n3. Mood/palette/style\n4. People: age, gender, demography\n5. Visible text or logos — NEVER make assumptions or name brands that are not absolutely clearly identifiable in the image or overlay/on-pack text\n6. All numbers that appear Explicitely on image/overlay (e.g., \"500 ml\", \"v25.3\", \"iPhone 6\")\n\nOUTPUT:\n• TITLE (6–10 words) – concise, editorial; name brand only if unmistakable.\n• DESCRIPTION (3–5 sentences) – main subject → setting/activity → key visuals; include visible numeric concepts.\n• KEYWORDS (up to 12) – prioratize single keywords first; use multi-word only when required contextually (e.g., \"soccer player\").\n\nRULES:\n• All numeric values MUST be tagged with their complete unit or metric as a single keyword Only if Clearly seen in the image/text (\"15 oz\", \"120 ml\").\n• The following keywords Must be Removed from the keywords list: \"logo\", \"brand\", \"branding\", \"packaging\" .\n\nReturn in pretty-print JSON format. Do not add Markdown or code block formatting. Use exactly these keys: 'Title' (string), 'Description' (string), and 'Keywords' (string containing a comma-separated list of tags"

/-- The prompt-selection cascade at the head of `buildAzureOpenAIPayload`
(lines 167-201): explicit custom prompt if truthy; else, for a truthy
property, the stored rule's text when a rule with that exact property name
exists (whatever its text), else the built-in default; else the configured
global custom prompt when truthy, else the built-in global default. -/
def resolvePrompt (cfg : Config) (store : StoredPrompts)
    (property customPrompt : Option String) : String :=
  if strTruthy customPrompt then customPrompt.getD ""
  else if strTruthy property then
    let p := property.getD ""
    let storedPrompts := getStoredCustomPrompts store
    match storedPrompts.find? (fun r => r.property == p) with
    | some rule => rule.prompt
    | none => getDefaultPromptForProperty p
  else if strTruthy cfg.customPrompt then cfg.customPrompt.getD ""
  else globalDefaultPrompt

/-- One part of the user message's content array. -/
inductive ContentPart where
  | text (text : String)
  | image_url (url : String)

/-- One chat message of the request body. -/
structure Message where
  role : String
  content : List ContentPart

/-- The Azure OpenAI request body (lines 203-225). -/
structure Payload where
  messages : List Message
  max_tokens : Nat
  temperature : Nat
  top_p : Nat
  model : String

/-- `buildAzureOpenAIPayload` (lines 167-226); `imageInfo` is accepted but
never read. -/
def buildAzureOpenAIPayload (cfg : Config) (store : StoredPrompts)
    (imageUrl : String) (_imageInfo : ImageInfo)
    (property customPrompt : Option String) : Payload :=
  let prompt := resolvePrompt cfg store property customPrompt
  { messages := [{ role := "user",
                   content := [.text prompt, .image_url imageUrl] }],
    max_tokens := 4096,
    temperature := 1,
    top_p := 1,
    model := (jsOrStr cfg.modelName (some "gpt-4-vision-preview")).getD "" }

/-! ### Record builders (lines 429-476) and the response parser -/

/-- `getDefaultMetadata` (lines 433-443); `now` is the
`new Date().toISOString()` timestamp the runtime supplies. -/
def getDefaultMetadata (now : String) : Obj :=
  [("title", .str "Sample Title"),
   ("description", .str "This is a sample description generated for testing purposes."),
   ("tags", .str "sample, test, placeholder, demo"),
   ("confidence", .null),
   ("processing_time", .null),
   ("provider", .str "default"),
   ("generated_at", .str now)]

/-- `getErrorMetadata` (lines 449-476): base fields, then every stored
custom-prompt property is assigned the display message (description alone
when the stored list is empty). -/
def getErrorMetadata (store : StoredPrompts) (errorMessage : String)
    (now : String) : Obj :=
  let customPrompts := getStoredCustomPrompts store
  let result : Obj :=
    [("error", .str errorMessage),
     ("provider", .str "error"),
     ("generated_at", .str now)]
  let displayMessage := "❌ Error: " ++ errorMessage
  if 0 < customPrompts.length then
    customPrompts.foldl (fun o r => setF o r.property (.str displayMessage)) result
  else
    setF result "description" (.str displayMessage)

/-- The inner-catch fallback of `parseAzureOpenAIResponse` (lines 288-314):
every stored custom-prompt property receives the sanitized raw content
(description alone when the stored list is empty). -/
def rawContentFallback (store : StoredPrompts) (content : String)
    (now : String) : Obj :=
  let customPrompts := getStoredCustomPrompts store
  let result : Obj :=
    [("confidence", .null),
     ("processing_time", .null),
     ("provider", .str "openai"),
     ("generated_at", .str now)]
  if 0 < customPrompts.length then
    customPrompts.foldl
      (fun o r => setF o r.property (.str (sanitizeString content))) result
  else
    setF result "description" (.str (sanitizeString content))

/-- The no-content branch of `parseAzureOpenAIResponse` (lines 237-268):
the pretty-printed response body is embedded in a raw-response display
message assigned to every stored custom-prompt property. -/
def noContentResult (store : StoredPrompts) (response : JsonVal)
    (now : String) : Obj :=
  let responseStr := stringifyPretty response
  let customPrompts := getStoredCustomPrompts store
  let result : Obj :=
    [("confidence", .null),
     ("processing_time", .null),
     ("provider", .str "openai"),
     ("generated_at", .str now)]
  let displayMessage := "📝 Raw Response: " ++ responseStr
  if 0 < customPrompts.length then
    customPrompts.foldl (fun o r => setF o r.property (.str displayMessage)) result
  else
    setF result "description" (.str displayMessage)

/-- The content-string path of `parseAzureOpenAIResponse` (lines 270-315):
strip code fences, trim, try `JSON.parse`; on success map the known keys
(`Title`/`title`, `Description`/`description`, `Keywords`/`keywords`/`tags`,
by those exact spellings, first truthy value wins) through `sanitizeString`;
on parse failure (or a `null` parse result, whose property access throws
into the same inner catch) fall back to the sanitized raw content. -/
def parseContentString (store : StoredPrompts) (content : String)
    (now : String) : Obj :=
  let cleanContent := jsTrim (stripFences content)
  match jsonParse cleanContent with
  | some metadata =>
      (match metadata with
       | .null => rawContentFallback store content now
       | _ =>
           [("title", .str (sanitizeVal (jsOr (jsOr (jsGet metadata "Title") (jsGet metadata "title")) (some (.str ""))))),
            ("description", .str (sanitizeVal (jsOr (jsOr (jsGet metadata "Description") (jsGet metadata "description")) (some (.str ""))))),
            ("tags", .str (sanitizeVal (jsOr (jsOr (jsOr (jsGet metadata "Keywords") (jsGet metadata "keywords")) (jsGet metadata "tags")) (some (.str ""))))),
            ("confidence", .null),
            ("processing_time", .null),
            ("provider", .str "openai"),
            ("generated_at", .str now)])
  | none => rawContentFallback store content now

/-- `parseAzureOpenAIResponse` (lines 232-321).  A `null` response body
makes `response.choices` throw, caught by the outer catch; a `null` parsed
content makes `metadata.Title` throw, caught by the inner catch (raw-text
fallback); truthy non-string content makes `content.replace` throw, caught
by the outer catch. -/
def parseAzureOpenAIResponse (store : StoredPrompts) (response : JsonVal)
    (now : String) : Obj :=
  match response with
  | .null =>
      getErrorMetadata store
        "Failed to parse Azure OpenAI response: Cannot read properties of null (reading 'choices')" now
  | _ =>
      let content? :=
        optGet (optGet (optIndex (jsGet response "choices") 0) "message") "content"
      if jsTruthy content? then
        match content? with
        | some (.str content) => parseContentString store content now
        | _ =>
            getErrorMetadata store
              "Failed to parse Azure OpenAI response: content.replace is not a function" now
      else noContentResult store response now

/-! ### Transport client and facade (lines 41-161, 73-91, 489-512) -/

/-- Endpoint completeness check of `callAPI` (lines 104-111):
`!baseUrl || !deployment || !apiVersion || baseUrl.includes('your-')`,
with `baseUrl = this.config.openaiUrl || this.config.openApiUrl`.
The placeholder sniff applies to the base URL only. -/
def configIncomplete (cfg : Config) : Bool :=
  let baseUrl := jsOrStr cfg.openaiUrl cfg.openApiUrl
  !strTruthy baseUrl || !strTruthy cfg.deployment || !strTruthy cfg.apiVersion ||
    containsSub (baseUrl.getD "") "your-"

/-- The request URL (line 113). -/
def buildRequestUrl (cfg : Config) : String :=
  (jsOrStr cfg.openaiUrl cfg.openApiUrl).getD "" ++ "/openai/deployments/" ++
    cfg.deployment.getD "" ++ "/chat/completions?api-version=" ++
    cfg.apiVersion.getD ""

/-- The retry loop of `callAPI` (lines 116-161), run over the remaining
attempts; `idx` is the 1-based attempt counter, `total` is
`config.retryAttempts`, `lastErr` the captured `lastError` (`none` while
still `undefined`).  When the loop ends with `lastError` undefined
(possible only with a zero attempt budget), reading `lastError.message`
throws a TypeError, modelled by `.error`. -/
def attemptsRun (store : StoredPrompts) (now : String)
    (tr : Nat → FetchOutcome) (total : Nat) :
    Nat → Nat → Option String → CallOutcome
  | 0, _, lastErr =>
      match lastErr with
      | some m =>
          { result := .ok (getErrorMetadata store ("Azure OpenAI API failed: " ++ m) now),
            attemptsMade := 0, waits := [], networkUsed := false }
      | none =>
          { result := .error "TypeError: Cannot read properties of undefined (reading 'message')",
            attemptsMade := 0, waits := [], networkUsed := false }
  | n + 1, idx, _ =>
      match tr idx with
      | .success body =>
          { result := .ok (parseAzureOpenAIResponse store body now),
            attemptsMade := 1, waits := [], networkUsed := true }
      | f =>
          let m := (fetchFailMessage f).getD ""
          let rest := attemptsRun store now tr total n (idx + 1) (some m)
          { result := rest.result,
            attemptsMade := 1 + rest.attemptsMade,
            waits := (if idx < total then [1000 * 2 ^ (idx - 1)] else []) ++ rest.waits,
            networkUsed := true }

/-- `callAPI` (lines 97-161): non-openai providers and incomplete
configurations short-circuit to the default record without any network
I/O; otherwise the payload is built and the retry loop runs. -/
def callAPI (cfg : Config) (store : StoredPrompts) (provider : String)
    (imageUrl : String) (imageInfo : ImageInfo)
    (property customPrompt : Option String)
    (tr : Nat → FetchOutcome) (now : String) : CallOutcome :=
  if provider != "openai" then
    { result := .ok (getDefaultMetadata now),
      attemptsMade := 0, waits := [], networkUsed := false }
  else if configIncomplete cfg then
    { result := .ok (getDefaultMetadata now),
      attemptsMade := 0, waits := [], networkUsed := false }
  else
    let _payload := buildAzureOpenAIPayload cfg store imageUrl imageInfo property customPrompt
    attemptsRun store now tr cfg.retryAttempts cfg.retryAttempts 1 none

/-- `generateOpenAIMetadata` (lines 41-43). -/
def generateOpenAIMetadata (cfg : Config) (store : StoredPrompts)
    (imageUrl : String) (imageInfo : ImageInfo)
    (tr : Nat → FetchOutcome) (now : String) : CallOutcome :=
  callAPI cfg store "openai" imageUrl imageInfo none none tr now

/-- `generateCustomPropertyMetadata` (lines 53-55). -/
def generateCustomPropertyMetadata (cfg : Config) (store : StoredPrompts)
    (imageUrl : String) (imageInfo : ImageInfo)
    (property customPrompt : String)
    (tr : Nat → FetchOutcome) (now : String) : CallOutcome :=
  callAPI cfg store "openai" imageUrl imageInfo (some property) (some customPrompt) tr now

/-- `generateLlamaMetadata` (lines 63-65). -/
def generateLlamaMetadata (cfg : Config) (store : StoredPrompts)
    (imageUrl : String) (imageInfo : ImageInfo)
    (tr : Nat → FetchOutcome) (now : String) : CallOutcome :=
  callAPI cfg store "llama" imageUrl imageInfo none none tr now

/-- Outcome of `generateBothMetadata`: the returned two-branch object and
whether any network I/O happened. -/
structure BothOutcome where
  value : Obj
  networkUsed : Bool

/-- `Promise.allSettled` branch settlement (lines 81-82): a fulfilled call
contributes its record, a rejected one the fixed error record. -/
def settleBranch (store : StoredPrompts) (o : CallOutcome) (failMsg : String)
    (now : String) : Obj :=
  match o.result with
  | .ok v => v
  | .error _ => getErrorMetadata store failMsg now

/-- `generateBothMetadata` (lines 73-91): two independent calls, each
branch settled on its own; `Promise.allSettled` never rejects, so the
outer catch (lines 84-90) is dead code. -/
def generateBothMetadata (cfg : Config) (store : StoredPrompts)
    (imageUrl : String) (imageInfo : ImageInfo)
    (trOpenai trLlama : Nat → FetchOutcome) (now : String) : BothOutcome :=
  let o := generateOpenAIMetadata cfg store imageUrl imageInfo trOpenai now
  let l := generateLlamaMetadata cfg store imageUrl imageInfo trLlama now
  { value := [("openai", .obj (settleBranch store o "OpenAI API failed" now)),
              ("llama", .obj (settleBranch store l "Llama API failed" now))],
    networkUsed := o.networkUsed || l.networkUsed }

/-- Outcome of `testConfiguration`: the returned value (`none` models the
`catch` branch returning `null`) and whether network I/O happened. -/
structure TestOutcome where
  value : Option Obj
  networkUsed : Bool

/-- The synthetic diagnostic image descriptor (lines 496-502). -/
def testImageInfo : ImageInfo :=
  { width := 800, height := 600, format := "jpg", size := 150000,
    filename := "test.jpg" }

/-- `testConfiguration` (lines 489-512): runs `generateBothMetadata` on a
fixed data URL and the synthetic descriptor; in this model the body never
throws, so the `return null` catch branch is unreachable. -/
def testConfiguration (cfg : Config) (store : StoredPrompts)
    (trOpenai trLlama : Nat → FetchOutcome) (now : String) : TestOutcome :=
  let b := generateBothMetadata cfg store "data:image/jpeg;base64,test"
    testImageInfo trOpenai trLlama now
  { value := some b.value, networkUsed := b.networkUsed }

/-! ### Helper lemmas -/

theorem getF_foldl_setF (l : List PromptRule) (o : Obj) (v : JsonVal) (k : String) :
    getF (l.foldl (fun o r => setF o r.property v) o) k =
      if l.any (fun r => r.property == k) then some v else getF o k := by
  induction l generalizing o with
  | nil => simp
  | cons r l ih =>
      simp only [List.foldl_cons, ih, getF_setF, List.any_cons]
      by_cases h1 : r.property = k
      · simp [h1]
      · simp [beq_eq_false_iff_ne.mpr h1]

theorem attemptsRun_allFail (store : StoredPrompts) (now : String)
    (tr : Nat → FetchOutcome) (total : Nat)
    (hfail : ∀ i, (fetchFailMessage (tr i)).isSome) :
    ∀ (n idx : Nat) (le : Option String), 1 ≤ n → 1 ≤ idx → idx + n = total + 1 →
      attemptsRun store now tr total n idx le =
        { result := .ok (getErrorMetadata store
            ("Azure OpenAI API failed: " ++ ((fetchFailMessage (tr total)).getD "")) now),
          attemptsMade := n,
          waits := (List.range (n - 1)).map (fun k => 1000 * 2 ^ (idx - 1 + k)),
          networkUsed := true } := by
  intro n
  induction n with
  | zero => intro idx le h1 _ _; exact absurd h1 (by omega)
  | succ n ih =>
      intro idx le _ hidx htot
      rcases Nat.eq_zero_or_pos n with hn0 | hnpos
      · subst hn0
        have hidxeq : idx = total := by omega
        subst hidxeq
        cases htr : tr idx with
        | success body =>
            have hf := hfail idx
            rw [htr] at hf
            simp [fetchFailMessage] at hf
        | netError m =>
            simp [attemptsRun, htr, Nat.lt_irrefl, fetchFailMessage]
        | httpError st stt b =>
            simp [attemptsRun, htr, Nat.lt_irrefl, fetchFailMessage]
        | jsonError m =>
            simp [attemptsRun, htr, Nat.lt_irrefl, fetchFailMessage]
      · have hlt : idx < total := by omega
        have hrest := ih (idx + 1) (some ((fetchFailMessage (tr idx)).getD ""))
          hnpos (by omega) (by omega)
        have hwaits :
            (List.range (n + 1 - 1)).map (fun k => 1000 * 2 ^ (idx - 1 + k)) =
              1000 * 2 ^ (idx - 1) ::
                (List.range (n - 1)).map (fun k => 1000 * 2 ^ (idx + k)) := by
          have hn : n + 1 - 1 = (n - 1) + 1 := by omega
          rw [hn, List.range_succ_eq_map, List.map_cons, List.map_map]
          refine congrArg₂ _ (by simp) ?_
          refine List.map_congr_left (fun a _ => ?_)
          simp only [Function.comp]
          exact congrArg (fun e => 1000 * 2 ^ e) (by omega)
        cases htr : tr idx with
        | success body =>
            have hf := hfail idx
            rw [htr] at hf
            simp [fetchFailMessage] at hf
        | netError m =>
            simp only [attemptsRun, htr]
            rw [htr] at hrest
            simp only [fetchFailMessage, Nat.add_sub_cancel] at hrest hwaits ⊢
            rw [hrest]
            simp [hlt, hwaits.symm, Nat.add_comm]
        | httpError st stt b =>
            simp only [attemptsRun, htr]
            rw [htr] at hrest
            simp only [fetchFailMessage, Nat.add_sub_cancel] at hrest hwaits ⊢
            rw [hrest]
            simp [hlt, hwaits.symm, Nat.add_comm]
        | jsonError m =>
            simp only [attemptsRun, htr]
            rw [htr] at hrest
            simp only [fetchFailMessage, Nat.add_sub_cancel] at hrest hwaits ⊢
            rw [hrest]
            simp [hlt, hwaits.symm, Nat.add_comm]

/-! ### Claim C2 -/

/-- C2: with a complete configuration (and a positive attempt budget,
which the loop's final `lastError.message` read presupposes) and a
transport failing on every attempt, `callAPI` performs exactly
`retryAttempts` fetch attempts, waits `1000 * 2^(attemptIndex-1)`
milliseconds after each attempt but the last (so `retryAttempts - 1`
waits: 1s, 2s, 4s, ...), and returns the error record built from the last
attempt's error. -/
theorem c2_retry_schedule (cfg : Config) (store : StoredPrompts)
    (imageUrl : String) (imageInfo : ImageInfo)
    (property customPrompt : Option String)
    (tr : Nat → FetchOutcome) (now : String)
    (hcfg : configIncomplete cfg = false)
    (hpos : 1 ≤ cfg.retryAttempts)
    (hfail : ∀ i, (fetchFailMessage (tr i)).isSome) :
    callAPI cfg store "openai" imageUrl imageInfo property customPrompt tr now =
      { result := .ok (getErrorMetadata store
          ("Azure OpenAI API failed: " ++
            ((fetchFailMessage (tr cfg.retryAttempts)).getD "")) now),
        attemptsMade := cfg.retryAttempts,
        waits := (List.range (cfg.retryAttempts - 1)).map (fun k => 1000 * 2 ^ k),
        networkUsed := true } := by
  have hrun := attemptsRun_allFail store now tr cfg.retryAttempts hfail
    cfg.retryAttempts 1 none hpos (by omega) (by omega)
  have hlam : (fun k => 1000 * 2 ^ (1 - 1 + k)) = (fun k => 1000 * 2 ^ k) := by
    funext k
    exact congrArg (fun e => 1000 * 2 ^ e) (by omega)
  rw [hlam] at hrun
  simp only [callAPI, hcfg]
  simpa using hrun

/-- Concrete instance of C2: a complete configuration with the default
budget of 3 and an always-failing transport yields 3 attempts, waits
[1000, 2000], and the error record for the last failure. -/
theorem c2_retry_schedule_witness :
    callAPI { openaiUrl := some "https://api.example.com",
              deployment := some "dep", apiVersion := some "2024-02-01" }
        .absent "openai" "img" testImageInfo none none
        (fun _ => .netError "boom") "T" =
      { result := .ok (getErrorMetadata .absent "Azure OpenAI API failed: boom" "T"),
        attemptsMade := 3,
        waits := [1000, 2000],
        networkUsed := true } := by
  rw [c2_retry_schedule _ .absent "img" testImageInfo none none
      (fun _ => .netError "boom") "T" (by decide) (by decide) (fun i => rfl)]
  rfl

theorem getErrorMetadata_fields (store : StoredPrompts) (msg now : String) :
    (getF (getErrorMetadata store msg now) "error").isSome = true ∧
    ((∀ r ∈ getStoredCustomPrompts store, r.property ≠ "provider") →
      getF (getErrorMetadata store msg now) "provider" = some (.str "error")) ∧
    (∀ r ∈ getStoredCustomPrompts store,
      getF (getErrorMetadata store msg now) r.property =
        some (.str ("❌ Error: " ++ msg))) := by
  cases hl : getStoredCustomPrompts store with
  | nil =>
      refine ⟨?_, fun _ => ?_, ?_⟩
      · simp [getErrorMetadata, hl, getF_setF, getF]
      · simp [getErrorMetadata, hl, getF_setF, getF]
      · intro r hr
        simp at hr
  | cons r0 l =>
      refine ⟨?_, fun hprov => ?_, ?_⟩
      · simp only [getErrorMetadata, hl, List.length_cons, Nat.zero_lt_succ, if_true,
          getF_foldl_setF]
        rcases ha : (r0 :: l).any (fun r => r.property == "error") with _ | _
        · simp [ha, getF]
        · simp [ha]
      · have ha : (r0 :: l).any (fun r => r.property == "provider") = false := by
          rw [List.any_eq_false]
          intro r hr
          simpa using hprov r hr
        simp only [getErrorMetadata, hl, List.length_cons, Nat.zero_lt_succ, if_true,
          getF_foldl_setF, ha]
        simp [getF]
      · intro r hr
        have ha : (r0 :: l).any (fun rr => rr.property == r.property) = true := by
          rw [List.any_eq_true]
          exact ⟨r, hl ▸ hr, beq_self_eq_true _⟩
        simp only [getErrorMetadata, hl, List.length_cons, Nat.zero_lt_succ, if_true,
          getF_foldl_setF, ha, if_true]

/-! ### Claim C1 -/

/-- C1 is refuted as universally stated: when a stored `PromptRule`
enumerates the property name `provider`, the per-property placeholder
assignment overwrites the `provider: 'error'` tag, so the returned error
record's `provider` field is the placeholder, not `'error'`. -/
theorem c1_counterexample :
    (callAPI { openaiUrl := some "https://api.example.com",
               deployment := some "dep", apiVersion := some "2024-02-01",
               retryAttempts := 1 }
        (.stored [⟨"provider", "p"⟩]) "openai" "img" testImageInfo none none
        (fun _ => .netError "boom") "T").result =
      .ok (getErrorMetadata (.stored [⟨"provider", "p"⟩])
            "Azure OpenAI API failed: boom" "T") ∧
    getF (getErrorMetadata (.stored [⟨"provider", "p"⟩])
            "Azure OpenAI API failed: boom" "T") "provider" =
      some (.str "❌ Error: Azure OpenAI API failed: boom") ∧
    "❌ Error: Azure OpenAI API failed: boom" ≠ "error" :=
  ⟨rfl, rfl, by decide⟩

/-- C1 (amended): on transport exhaustion (every attempt failing, with a
positive attempt budget) the call returns — never throws — the error
record: `error` is set, `provider` is `'error'` provided no stored rule
is itself named `provider` (such a rule receives the placeholder
instead), and every stored rule's property carries the human-readable
`❌ Error: ...` placeholder. -/
theorem c1_error_record (cfg : Config) (store : StoredPrompts)
    (imageUrl : String) (imageInfo : ImageInfo)
    (property customPrompt : Option String)
    (tr : Nat → FetchOutcome) (now : String)
    (hcfg : configIncomplete cfg = false)
    (hpos : 1 ≤ cfg.retryAttempts)
    (hfail : ∀ i, (fetchFailMessage (tr i)).isSome)
    (hprov : ∀ r ∈ getStoredCustomPrompts store, r.property ≠ "provider") :
    (callAPI cfg store "openai" imageUrl imageInfo property customPrompt tr now).result =
      .ok (getErrorMetadata store
        ("Azure OpenAI API failed: " ++
          ((fetchFailMessage (tr cfg.retryAttempts)).getD "")) now) ∧
    (getF (getErrorMetadata store
        ("Azure OpenAI API failed: " ++
          ((fetchFailMessage (tr cfg.retryAttempts)).getD "")) now) "error").isSome = true ∧
    getF (getErrorMetadata store
        ("Azure OpenAI API failed: " ++
          ((fetchFailMessage (tr cfg.retryAttempts)).getD "")) now) "provider" =
      some (.str "error") ∧
    ∀ r ∈ getStoredCustomPrompts store,
      getF (getErrorMetadata store
          ("Azure OpenAI API failed: " ++
            ((fetchFailMessage (tr cfg.retryAttempts)).getD "")) now) r.property =
        some (.str ("❌ Error: " ++ ("Azure OpenAI API failed: " ++
          ((fetchFailMessage (tr cfg.retryAttempts)).getD "")))) := by
  obtain ⟨he, hp, hm⟩ := getErrorMetadata_fields store
    ("Azure OpenAI API failed: " ++ ((fetchFailMessage (tr cfg.retryAttempts)).getD ""))
    now
  refine ⟨?_, he, hp hprov, hm⟩
  have hrun := attemptsRun_allFail store now tr cfg.retryAttempts hfail
    cfg.retryAttempts 1 none hpos (by omega) (by omega)
  simp only [callAPI, hcfg]
  simp [hrun]

/-- Concrete instance of C1 (amended): complete configuration, transport
failing every attempt, stored rules named `title` and `keywords`. -/
theorem c1_error_record_witness :
    (callAPI { openaiUrl := some "https://api.example.com",
               deployment := some "dep", apiVersion := some "2024-02-01" }
        (.stored [⟨"title", "p"⟩, ⟨"keywords", "q"⟩]) "openai" "img" testImageInfo
        none none (fun _ => .netError "boom") "T").result =
      .ok (getErrorMetadata (.stored [⟨"title", "p"⟩, ⟨"keywords", "q"⟩])
        ("Azure OpenAI API failed: " ++
          ((fetchFailMessage ((fun _ => FetchOutcome.netError "boom") 3)).getD "")) "T") ∧
    (getF (getErrorMetadata (.stored [⟨"title", "p"⟩, ⟨"keywords", "q"⟩])
        ("Azure OpenAI API failed: " ++
          ((fetchFailMessage ((fun _ => FetchOutcome.netError "boom") 3)).getD "")) "T")
        "error").isSome = true ∧
    getF (getErrorMetadata (.stored [⟨"title", "p"⟩, ⟨"keywords", "q"⟩])
        ("Azure OpenAI API failed: " ++
          ((fetchFailMessage ((fun _ => FetchOutcome.netError "boom") 3)).getD "")) "T")
        "provider" = some (.str "error") ∧
    ∀ r ∈ getStoredCustomPrompts (.stored [⟨"title", "p"⟩, ⟨"keywords", "q"⟩]),
      getF (getErrorMetadata (.stored [⟨"title", "p"⟩, ⟨"keywords", "q"⟩])
          ("Azure OpenAI API failed: " ++
            ((fetchFailMessage ((fun _ => FetchOutcome.netError "boom") 3)).getD "")) "T")
          r.property =
        some (.str ("❌ Error: " ++ ("Azure OpenAI API failed: " ++
          ((fetchFailMessage ((fun _ => FetchOutcome.netError "boom") 3)).getD "")))) :=
  c1_error_record ({ openaiUrl := some "https://api.example.com",
                     deployment := some "dep",
                     apiVersion := some "2024-02-01" } : Config)
    (.stored [⟨"title", "p"⟩, ⟨"keywords", "q"⟩]) "img" testImageInfo none none
    (fun _ => .netError "boom") "T" (by decide) (by decide) (fun i => rfl)
    (by decide)

/-! ### Claim C10 -/

/-- C10: a call routed to any provider other than `openai` — in
particular every `generateLlamaMetadata` call — performs no network I/O
and returns the fixed default record, whose provider tag is `default`. -/
theorem c10_non_openai_default (cfg : Config) (store : StoredPrompts)
    (provider imageUrl : String) (imageInfo : ImageInfo)
    (property customPrompt : Option String)
    (tr : Nat → FetchOutcome) (now : String)
    (hprov : provider ≠ "openai") :
    callAPI cfg store provider imageUrl imageInfo property customPrompt tr now =
      { result := .ok (getDefaultMetadata now),
        attemptsMade := 0, waits := [], networkUsed := false } ∧
    generateLlamaMetadata cfg store imageUrl imageInfo tr now =
      { result := .ok (getDefaultMetadata now),
        attemptsMade := 0, waits := [], networkUsed := false } ∧
    getF (getDefaultMetadata now) "provider" = some (.str "default") := by
  have hb : (provider != "openai") = true := bne_iff_ne.mpr hprov
  refine ⟨by simp [callAPI, hb], rfl, rfl⟩

/-- Concrete instance of C10: a `llama` call returns the default record
and touches no network. -/
theorem c10_non_openai_default_witness :
    callAPI defaultConfig .absent "llama" "img" testImageInfo none none
        (fun _ => .netError "x") "T" =
      { result := .ok (getDefaultMetadata "T"),
        attemptsMade := 0, waits := [], networkUsed := false } ∧
    generateLlamaMetadata defaultConfig .absent "img" testImageInfo
        (fun _ => .netError "x") "T" =
      { result := .ok (getDefaultMetadata "T"),
        attemptsMade := 0, waits := [], networkUsed := false } ∧
    getF (getDefaultMetadata "T") "provider" = some (.str "default") :=
  c10_non_openai_default defaultConfig .absent "llama" "img" testImageInfo
    none none (fun _ => .netError "x") "T" (by decide)

/-! ### Claim C6 -/

/-- C6 is refuted as stated: the placeholder sniff applies only to the
base URL.  A configuration whose deployment id is the placeholder
`your-deployment` (base URL and API version sound) is not treated as
incomplete: the call performs network I/O and retries instead of
short-circuiting to the default record. -/
theorem c6_counterexample :
    containsSub "your-deployment" "your-" = true ∧
    configIncomplete { openaiUrl := some "https://api.example.com",
                       deployment := some "your-deployment",
                       apiVersion := some "2024-02-01" } = false ∧
    (callAPI { openaiUrl := some "https://api.example.com",
               deployment := some "your-deployment",
               apiVersion := some "2024-02-01" }
        .absent "openai" "img" testImageInfo none none
        (fun _ => .netError "down") "T").networkUsed = true ∧
    (callAPI { openaiUrl := some "https://api.example.com",
               deployment := some "your-deployment",
               apiVersion := some "2024-02-01" }
        .absent "openai" "img" testImageInfo none none
        (fun _ => .netError "down") "T").attemptsMade = 3 :=
  ⟨by decide, by decide, rfl, rfl⟩

/-- C6 (amended): when the base URL is missing, the deployment id is
missing, the API version is missing, or the base URL (and only the base
URL) contains the placeholder substring `your-`, every call
short-circuits to the degraded default record (provider `default`) with
zero attempts, zero waits, and no network I/O. -/
theorem c6_incomplete_short_circuit (cfg : Config) (store : StoredPrompts)
    (provider imageUrl : String) (imageInfo : ImageInfo)
    (property customPrompt : Option String)
    (tr : Nat → FetchOutcome) (now : String)
    (h : strTruthy (jsOrStr cfg.openaiUrl cfg.openApiUrl) = false ∨
         strTruthy cfg.deployment = false ∨
         strTruthy cfg.apiVersion = false ∨
         containsSub ((jsOrStr cfg.openaiUrl cfg.openApiUrl).getD "") "your-" = true) :
    callAPI cfg store provider imageUrl imageInfo property customPrompt tr now =
      { result := .ok (getDefaultMetadata now),
        attemptsMade := 0, waits := [], networkUsed := false } ∧
    getF (getDefaultMetadata now) "provider" = some (.str "default") := by
  have hcfg : configIncomplete cfg = true := by
    rcases h with h | h | h | h <;> simp [configIncomplete, h]
  refine ⟨?_, rfl⟩
  simp [callAPI, hcfg, ite_self]

/-- Concrete instance of C6 (amended): the constructor's default
configuration (placeholder base URL, no deployment id) short-circuits. -/
theorem c6_incomplete_short_circuit_witness :
    callAPI defaultConfig .absent "openai" "img" testImageInfo none none
        (fun _ => .netError "down") "T" =
      { result := .ok (getDefaultMetadata "T"),
        attemptsMade := 0, waits := [], networkUsed := false } ∧
    getF (getDefaultMetadata "T") "provider" = some (.str "default") :=
  c6_incomplete_short_circuit defaultConfig .absent "openai" "img" testImageInfo
    none none (fun _ => .netError "down") "T" (Or.inr (Or.inl (by decide)))

/-! ### Claim C7 -/

/-- C7: when exactly one of the two underlying calls of
`generateBothMetadata` fails (its promise rejects), the combined result
still carries both branches: the failing branch settles to the fixed
error record (which has its `error` field set) and the succeeding
branch's record is included unchanged. -/
theorem c7_one_branch_failure (cfg : Config) (store : StoredPrompts)
    (imageUrl : String) (imageInfo : ImageInfo)
    (trOpenai trLlama : Nat → FetchOutcome) (now : String)
    (e : String) (v : Obj)
    (h : ((generateOpenAIMetadata cfg store imageUrl imageInfo trOpenai now).result = .error e ∧
          (generateLlamaMetadata cfg store imageUrl imageInfo trLlama now).result = .ok v) ∨
         ((generateOpenAIMetadata cfg store imageUrl imageInfo trOpenai now).result = .ok v ∧
          (generateLlamaMetadata cfg store imageUrl imageInfo trLlama now).result = .error e)) :
    (((generateOpenAIMetadata cfg store imageUrl imageInfo trOpenai now).result = .error e ∧
      (generateBothMetadata cfg store imageUrl imageInfo trOpenai trLlama now).value =
        [("openai", .obj (getErrorMetadata store "OpenAI API failed" now)),
         ("llama", .obj v)]) ∨
     ((generateLlamaMetadata cfg store imageUrl imageInfo trLlama now).result = .error e ∧
      (generateBothMetadata cfg store imageUrl imageInfo trOpenai trLlama now).value =
        [("openai", .obj v),
         ("llama", .obj (getErrorMetadata store "Llama API failed" now))])) ∧
    (getF (getErrorMetadata store "OpenAI API failed" now) "error").isSome = true ∧
    (getF (getErrorMetadata store "Llama API failed" now) "error").isSome = true := by
  refine ⟨?_, (getErrorMetadata_fields store "OpenAI API failed" now).1,
    (getErrorMetadata_fields store "Llama API failed" now).1⟩
  rcases h with ⟨h1, h2⟩ | ⟨h1, h2⟩
  · exact Or.inl ⟨h1, by simp [generateBothMetadata, settleBranch, h1, h2]⟩
  · exact Or.inr ⟨h2, by simp [generateBothMetadata, settleBranch, h1, h2]⟩

/-- Concrete instance of C7: with a complete configuration whose attempt
budget is zero, the openai branch rejects (reading `lastError.message` of
an undefined `lastError` throws) while the llama branch fulfills with the
default record; the combined value keeps both. -/
theorem c7_one_branch_failure_witness :
    (((generateOpenAIMetadata { openaiUrl := some "https://api.example.com",
                                deployment := some "dep",
                                apiVersion := some "2024-02-01",
                                retryAttempts := 0 }
          .absent "img" testImageInfo (fun _ => .netError "x") "T").result =
        .error "TypeError: Cannot read properties of undefined (reading 'message')" ∧
      (generateBothMetadata { openaiUrl := some "https://api.example.com",
                              deployment := some "dep",
                              apiVersion := some "2024-02-01",
                              retryAttempts := 0 }
          .absent "img" testImageInfo (fun _ => .netError "x")
          (fun _ => .netError "y") "T").value =
        [("openai", .obj (getErrorMetadata .absent "OpenAI API failed" "T")),
         ("llama", .obj (getDefaultMetadata "T"))]) ∨
     ((generateLlamaMetadata { openaiUrl := some "https://api.example.com",
                               deployment := some "dep",
                               apiVersion := some "2024-02-01",
                               retryAttempts := 0 }
          .absent "img" testImageInfo (fun _ => .netError "y") "T").result =
        .error "TypeError: Cannot read properties of undefined (reading 'message')" ∧
      (generateBothMetadata { openaiUrl := some "https://api.example.com",
                              deployment := some "dep",
                              apiVersion := some "2024-02-01",
                              retryAttempts := 0 }
          .absent "img" testImageInfo (fun _ => .netError "x")
          (fun _ => .netError "y") "T").value =
        [("openai", .obj (getDefaultMetadata "T")),
         ("llama", .obj (getErrorMetadata .absent "Llama API failed" "T"))])) ∧
    (getF (getErrorMetadata .absent "OpenAI API failed" "T") "error").isSome = true ∧
    (getF (getErrorMetadata .absent "Llama API failed" "T") "error").isSome = true :=
  c7_one_branch_failure ({ openaiUrl := some "https://api.example.com",
                           deployment := some "dep",
                           apiVersion := some "2024-02-01",
                           retryAttempts := 0 } : Config)
    .absent "img" testImageInfo (fun _ => .netError "x") (fun _ => .netError "y")
    "T" "TypeError: Cannot read properties of undefined (reading 'message')"
    (getDefaultMetadata "T") (Or.inl ⟨rfl, rfl⟩)

/-! ### Claim C8 -/

/-- C8 is refuted as stated: `testConfiguration` does not return a single
`MetadataRecord`; it returns the `generateBothMetadata` pair object,
which itself has no `provider` field (each nested branch record does). -/
theorem c8_counterexample :
    (testConfiguration defaultConfig .absent (fun _ => .netError "x")
        (fun _ => .netError "y") "T").networkUsed = false ∧
    ((testConfiguration defaultConfig .absent (fun _ => .netError "x")
        (fun _ => .netError "y") "T").value.map (fun v => getF v "provider")) =
      some none ∧
    ((testConfiguration defaultConfig .absent (fun _ => .netError "x")
        (fun _ => .netError "y") "T").value.map (fun v => getF v "openai")) =
      some (some (.obj (getDefaultMetadata "T"))) :=
  ⟨rfl, rfl, rfl⟩

/-- C8 (amended): with an incomplete configuration (missing deployment
id), `testConfiguration` attempts no network call and returns the pair
object whose two branches are both the degraded default record with
provider `default`; the body's catch clause (returning null, modelled as
`none`) is the only other outcome. -/
theorem c8_test_configuration (cfg : Config) (store : StoredPrompts)
    (trOpenai trLlama : Nat → FetchOutcome) (now : String)
    (h : strTruthy cfg.deployment = false) :
    (testConfiguration cfg store trOpenai trLlama now).networkUsed = false ∧
    (testConfiguration cfg store trOpenai trLlama now).value =
      some [("openai", .obj (getDefaultMetadata now)),
            ("llama", .obj (getDefaultMetadata now))] ∧
    getF (getDefaultMetadata now) "provider" = some (.str "default") := by
  have hcfg : configIncomplete cfg = true := by
    simp [configIncomplete, h]
  refine ⟨?_, ?_, rfl⟩ <;>
    simp [testConfiguration, generateBothMetadata, generateOpenAIMetadata,
      generateLlamaMetadata, callAPI, settleBranch, hcfg, ite_self]

/-- Concrete instance of C8 (amended): the constructor configuration has
no deployment id; `testConfiguration` short-circuits both branches. -/
theorem c8_test_configuration_witness :
    (testConfiguration defaultConfig .absent (fun _ => .netError "a")
        (fun _ => .netError "b") "T").networkUsed = false ∧
    (testConfiguration defaultConfig .absent (fun _ => .netError "a")
        (fun _ => .netError "b") "T").value =
      some [("openai", .obj (getDefaultMetadata "T")),
            ("llama", .obj (getDefaultMetadata "T"))] ∧
    getF (getDefaultMetadata "T") "provider" = some (.str "default") :=
  c8_test_configuration defaultConfig .absent (fun _ => .netError "a")
    (fun _ => .netError "b") "T" rfl

/-! ### Claim C9 -/

/-- C9: the request body carries exactly one message, of role `user`,
whose content is exactly one text part holding the resolved prompt and
one image part holding the image reference; the generation parameters
`max_tokens`, `temperature` and `top_p` are fixed constants; and the
builder is deterministic. -/
theorem c9_payload_shape (cfg : Config) (store : StoredPrompts)
    (imageUrl : String) (imageInfo : ImageInfo)
    (property customPrompt : Option String) :
    (buildAzureOpenAIPayload cfg store imageUrl imageInfo property customPrompt).messages =
      [{ role := "user",
         content := [.text (resolvePrompt cfg store property customPrompt),
                     .image_url imageUrl] }] ∧
    (buildAzureOpenAIPayload cfg store imageUrl imageInfo property customPrompt).max_tokens = 4096 ∧
    (buildAzureOpenAIPayload cfg store imageUrl imageInfo property customPrompt).temperature = 1 ∧
    (buildAzureOpenAIPayload cfg store imageUrl imageInfo property customPrompt).top_p = 1 ∧
    buildAzureOpenAIPayload cfg store imageUrl imageInfo property customPrompt =
      buildAzureOpenAIPayload cfg store imageUrl imageInfo property customPrompt :=
  ⟨rfl, rfl, rfl, rfl, rfl⟩

/-! ### Claim C4 -/

/-- A provider response whose `choices[0].message.content` is `c`. -/
def respWithContent (c : String) : JsonVal :=
  .obj [("choices", .arr [.obj [("message", .obj [("content", .str c)])]])]

theorem isEmpty_eq_false_of_ne (s : String) (h : s ≠ "") : s.isEmpty = false := by
  cases hs : s.isEmpty
  · rfl
  · exact absurd ((String.isEmpty_iff s).mp hs) h

theorem parseAzureOpenAIResponse_content (store : StoredPrompts)
    (content now : String) (hne : content ≠ "") :
    parseAzureOpenAIResponse store (respWithContent content) now =
      parseContentString store content now := by
  show (if jsTruthy (some (.str content)) then parseContentString store content now
        else noContentResult store (respWithContent content) now) =
      parseContentString store content now
  have htr : jsTruthy (some (.str content)) = true := by
    simp [jsTruthy, isEmpty_eq_false_of_ne content hne]
  rw [htr]
  simp

theorem rawContentFallback_fields (store : StoredPrompts) (content now : String) :
    ∀ r ∈ getStoredCustomPrompts store,
      getF (rawContentFallback store content now) r.property =
        some (.str (sanitizeString content)) := by
  intro r hr
  cases hl : getStoredCustomPrompts store with
  | nil =>
      rw [hl] at hr
      simp at hr
  | cons r0 l =>
      rw [hl] at hr
      have ha : (r0 :: l).any (fun rr => rr.property == r.property) = true :=
        List.any_eq_true.mpr ⟨r, hr, beq_self_eq_true _⟩
      simp only [rawContentFallback, hl, List.length_cons, Nat.zero_lt_succ, if_true,
        getF_foldl_setF, ha, if_true]

/-- C4: content that is present (truthy) but is not valid JSON after
code-fence stripping takes the graceful-degradation path: the parser
returns (never throws) the raw-content fallback record, in which every
stored rule's property is mapped to the sanitized original content. -/
theorem c4_plain_text_fallback (store : StoredPrompts) (content now : String)
    (hne : content ≠ "")
    (hbad : jsonParse (jsTrim (stripFences content)) = none) :
    parseAzureOpenAIResponse store (respWithContent content) now =
      rawContentFallback store content now ∧
    ∀ r ∈ getStoredCustomPrompts store,
      getF (rawContentFallback store content now) r.property =
        some (.str (sanitizeString content)) := by
  refine ⟨?_, rawContentFallback_fields store content now⟩
  rw [parseAzureOpenAIResponse_content store content now hne]
  simp only [parseContentString, hbad]

/-- Concrete instance of C4: non-JSON content `not json at all` populates
both stored properties with the (already clean) text. -/
theorem c4_plain_text_fallback_witness :
    getF (parseAzureOpenAIResponse (.stored [⟨"title", "p"⟩, ⟨"description", "q"⟩])
        (respWithContent "not json at all") "T") "title" =
      some (.str "not json at all") ∧
    getF (parseAzureOpenAIResponse (.stored [⟨"title", "p"⟩, ⟨"description", "q"⟩])
        (respWithContent "not json at all") "T") "description" =
      some (.str "not json at all") := by
  have h := c4_plain_text_fallback (.stored [⟨"title", "p"⟩, ⟨"description", "q"⟩])
    "not json at all" "T" (by decide) rfl
  rw [h.1]
  exact ⟨h.2 ⟨"title", "p"⟩ (by simp [getStoredCustomPrompts]),
         h.2 ⟨"description", "q"⟩ (by simp [getStoredCustomPrompts])⟩

/-! ### Claim C3 -/

/-- Modelled from the claim's words ("matched case-insensitively"): a
case-insensitive key lookup, used only to compare the claimed behaviour
against the code's exact-spelling lookup. -/
def ciLookup (fs : List (String × JsonVal)) (k : String) : Option JsonVal :=
  (fs.find? (fun p => jsToLower p.1 == jsToLower k)).map (fun p => p.2)

/-- The spec's scenario content: a fenced JSON object with `Title`,
`Description` and `Keywords`. -/
def scenarioContent : String :=
  "```json\n\x7b\"Title\":\"A\",\"Description\":\"B\",\"Keywords\":\"c,d\"\x7d\n```"

/-- C3 is refuted as universally stated: key matching is by the exact
spellings `Title`/`title` (and likewise for the other fields), not
case-insensitive.  The content `{"TITLE":"A"}` is valid JSON with no
fences; a case-insensitive match would give title `A`, but the parser
returns title `''`. -/
theorem c3_counterexample :
    jsonParse "\x7b\"TITLE\":\"A\"\x7d" = some (.obj [("TITLE", .str "A")]) ∧
    stripFences "\x7b\"TITLE\":\"A\"\x7d" = "\x7b\"TITLE\":\"A\"\x7d" ∧
    ciLookup [("TITLE", .str "A")] "Title" = some (.str "A") ∧
    sanitizeString "A" = "A" ∧
    getF (parseAzureOpenAIResponse .absent
        (respWithContent "\x7b\"TITLE\":\"A\"\x7d") "T") "title" =
      some (.str "") ∧
    ("" : String) ≠ "A" :=
  ⟨rfl, rfl, rfl, rfl, rfl, by decide⟩

/-- C3 (amended): for content that, after global removal of the
code-fence markers and trimming, parses as a JSON object, the parser
returns the structured record: `title` is the sanitized first truthy
value among the exact keys `Title`, `title` (then `''`), `description`
likewise from `Description`/`description`, `tags` from
`Keywords`/`keywords`/`tags`, and the provider tag is `openai`; in
particular the spec's fenced scenario yields
`{title: "A", description: "B", tags: "c,d"}`. -/
theorem c3_structured_parse (store : StoredPrompts) (content now : String)
    (fs : List (String × JsonVal))
    (hne : content ≠ "")
    (hjson : jsonParse (jsTrim (stripFences content)) = some (.obj fs)) :
    getF (parseAzureOpenAIResponse store (respWithContent content) now) "title" =
      some (.str (sanitizeVal (jsOr (jsOr (getF fs "Title") (getF fs "title"))
        (some (.str ""))))) ∧
    getF (parseAzureOpenAIResponse store (respWithContent content) now) "description" =
      some (.str (sanitizeVal (jsOr (jsOr (getF fs "Description") (getF fs "description"))
        (some (.str ""))))) ∧
    getF (parseAzureOpenAIResponse store (respWithContent content) now) "tags" =
      some (.str (sanitizeVal (jsOr (jsOr (jsOr (getF fs "Keywords") (getF fs "keywords"))
        (getF fs "tags")) (some (.str ""))))) ∧
    getF (parseAzureOpenAIResponse store (respWithContent content) now) "provider" =
      some (.str "openai") ∧
    getF (parseAzureOpenAIResponse store (respWithContent scenarioContent) now) "title" =
      some (.str "A") ∧
    getF (parseAzureOpenAIResponse store (respWithContent scenarioContent) now) "description" =
      some (.str "B") ∧
    getF (parseAzureOpenAIResponse store (respWithContent scenarioContent) now) "tags" =
      some (.str "c,d") := by
  refine ⟨?_, ?_, ?_, ?_, rfl, rfl, rfl⟩ <;>
    (rw [parseAzureOpenAIResponse_content store content now hne]
     simp only [parseContentString, hjson]
     rfl)

/-- Concrete instance of C3 (amended): the fenced scenario content parses
to the expected record. -/
theorem c3_structured_parse_witness :
    getF (parseAzureOpenAIResponse .absent (respWithContent scenarioContent) "T")
      "title" = some (.str "A") ∧
    getF (parseAzureOpenAIResponse .absent (respWithContent scenarioContent) "T")
      "description" = some (.str "B") ∧
    getF (parseAzureOpenAIResponse .absent (respWithContent scenarioContent) "T")
      "tags" = some (.str "c,d") ∧
    getF (parseAzureOpenAIResponse .absent (respWithContent scenarioContent) "T")
      "provider" = some (.str "openai") := by
  have h := c3_structured_parse .absent scenarioContent "T"
    [("Title", .str "A"), ("Description", .str "B"), ("Keywords", .str "c,d")]
    (by decide) rfl
  exact ⟨h.2.2.2.2.1, h.2.2.2.2.2.1, h.2.2.2.2.2.2, h.2.2.2.1⟩

/-! ### Claim C5 -/

theorem strTruthy_some_ne (s : String) (h : strTruthy (some s) = true) : s ≠ "" := by
  intro he
  subst he
  simp only [strTruthy] at h
  exact absurd h (by decide)

theorem getDefaultPromptForProperty_ne_empty (p : String) :
    getDefaultPromptForProperty p ≠ "" := by
  by_cases h1 : jsToLower p = "title"
  · simp only [getDefaultPromptForProperty, h1, beq_self_eq_true, if_true]
    decide
  · by_cases h2 : jsToLower p = "description"
    · simp [getDefaultPromptForProperty, beq_eq_false_iff_ne.mpr h1, h2]
    · by_cases h3 : jsToLower p = "keywords"
      · simp [getDefaultPromptForProperty, beq_eq_false_iff_ne.mpr h1,
          beq_eq_false_iff_ne.mpr h2, h3]
      · simp only [getDefaultPromptForProperty, beq_eq_false_iff_ne.mpr h1,
          beq_eq_false_iff_ne.mpr h2, beq_eq_false_iff_ne.mpr h3,
          Bool.false_eq_true, if_false]
        intro h
        have hd := congrArg String.data h
        simp only [String.data_append] at hd
        rcases List.append_eq_nil.mp hd with ⟨hd1, _⟩
        rcases List.append_eq_nil.mp hd1 with ⟨hd2, _⟩
        rcases List.append_eq_nil.mp hd2 with ⟨hd3, _⟩
        rcases List.append_eq_nil.mp hd3 with ⟨hd4, _⟩
        exact absurd hd4 (by decide)

/-- C5 is refuted as stated: a stored rule whose text is empty is still
selected (the source tests the rule object, not its text), so the
resolver returns the empty string rather than the built-in default. -/
theorem c5_counterexample :
    resolvePrompt defaultConfig (.stored [⟨"title", ""⟩]) (some "title") none = "" ∧
    getDefaultPromptForProperty "title" ≠ "" :=
  ⟨rfl, by decide⟩

/-- C5 (amended): the cascade is — non-empty override; else, for a truthy
property, the stored rule's text whenever a rule with that property
exists (even when that text is empty); else the built-in default looked
up case-insensitively, defaulting to a synthesized generic instruction
containing the property name; else (property absent) the configured
global prompt when non-empty, else the built-in global default.  The
result is non-empty provided every stored rule has non-empty text. -/
theorem c5_prompt_cascade (cfg : Config) (store : StoredPrompts)
    (property customPrompt : Option String)
    (hrules : ∀ r ∈ getStoredCustomPrompts store, r.prompt ≠ "") :
    resolvePrompt cfg store property customPrompt ≠ "" ∧
    (∀ s : String, customPrompt = some s → s ≠ "" →
      resolvePrompt cfg store property customPrompt = s) ∧
    (∀ p : String, property = some p → p ≠ "" → strTruthy customPrompt = false →
      resolvePrompt cfg store property customPrompt =
        (match (getStoredCustomPrompts store).find? (fun r => r.property == p) with
         | some rule => rule.prompt
         | none => getDefaultPromptForProperty p)) ∧
    (strTruthy property = false → strTruthy customPrompt = false →
      resolvePrompt cfg store property customPrompt =
        (if strTruthy cfg.customPrompt then cfg.customPrompt.getD ""
         else globalDefaultPrompt)) ∧
    (∀ p : String, jsToLower p ≠ "title" → jsToLower p ≠ "description" →
      jsToLower p ≠ "keywords" →
      getDefaultPromptForProperty p =
        "Analyze this image and provide relevant " ++ p ++
          " information. Return only the " ++ p ++
          " text, no additional formatting or explanation.") := by
  refine ⟨?_, ?_, ?_, ?_, ?_⟩
  · by_cases h1 : strTruthy customPrompt
    · cases customPrompt with
      | none => simp [strTruthy] at h1
      | some s =>
          simp only [resolvePrompt, h1, if_true, Option.getD_some]
          exact strTruthy_some_ne s h1
    · rw [Bool.not_eq_true] at h1
      by_cases h2 : strTruthy property
      · cases property with
        | none => simp [strTruthy] at h2
        | some p =>
            simp only [resolvePrompt, h1, Bool.false_eq_true, if_false, h2, if_true,
              Option.getD_some]
            cases hf : (getStoredCustomPrompts store).find? (fun r => r.property == p) with
            | none => simp only [hf]; exact getDefaultPromptForProperty_ne_empty p
            | some rule =>
                simp only [hf]
                exact hrules rule (List.mem_of_find?_eq_some hf)
      · rw [Bool.not_eq_true] at h2
        simp only [resolvePrompt, h1, h2, Bool.false_eq_true, if_false]
        by_cases h3 : strTruthy cfg.customPrompt
        · cases hc : cfg.customPrompt with
          | none =>
              rw [hc] at h3
              simp [strTruthy] at h3
          | some s =>
              rw [hc] at h3
              simp only [h3, if_true, Option.getD_some]
              exact strTruthy_some_ne s h3
        · rw [Bool.not_eq_true] at h3
          simp only [h3, Bool.false_eq_true, if_false]
          decide
  · intro s hs hsne
    subst hs
    have hst : strTruthy (some s) = true := by
      simp [strTruthy, isEmpty_eq_false_of_ne s hsne]
    simp [resolvePrompt, hst]
  · intro p hp hpne hcp
    subst hp
    have hpt : strTruthy (some p) = true := by
      simp [strTruthy, isEmpty_eq_false_of_ne p hpne]
    simp only [resolvePrompt, hcp, Bool.false_eq_true, if_false, hpt, if_true,
      Option.getD_some]
  · intro hp hcp
    simp [resolvePrompt, hp, hcp]
  · intro p h1 h2 h3
    simp [getDefaultPromptForProperty, beq_eq_false_iff_ne.mpr h1,
      beq_eq_false_iff_ne.mpr h2, beq_eq_false_iff_ne.mpr h3]

/-- Concrete instance of C5 (amended): a stored non-empty rule for
`title` wins over the built-in default, and the result is non-empty. -/
theorem c5_prompt_cascade_witness :
    resolvePrompt defaultConfig (.stored [⟨"title", "Custom title prompt"⟩])
      (some "title") none = "Custom title prompt" ∧
    resolvePrompt defaultConfig (.stored [⟨"title", "Custom title prompt"⟩])
      (some "title") none ≠ "" := by
  have h := c5_prompt_cascade defaultConfig
    (.stored [⟨"title", "Custom title prompt"⟩]) (some "title") none
    (by simp [getStoredCustomPrompts])
  exact ⟨(h.2.2.1 "title" rfl (by decide) rfl).trans rfl, h.1⟩
